import Mathlib

/-!
Shallow embedding of the Planetoids game simulation (src/planetoids.py).

Conventions used throughout:
- Python floats are modelled as exact rationals.
- Python's float modulo a % b (true modulo, sign of the divisor) is
  modelled by pymod a b = a - b * floor (a / b).
- trigonometric functions (math.sin, math.cos, math.atan2, in degrees as the
  source uses them) are kept abstract as a Trig parameter: the claims under
  study depend only on the structural form of the velocity vectors, not on
  analytic identities.
- random.uniform / random.randint / random.random draw from an explicit
  stream of rationals (Rng); uniform(a, b) maps a stream draw u to
  a + (b - a) * u, so a stream valued in [0, 1] corresponds to genuine
  uniform draws; randint(a, b) maps a draw to a + (floor u) % (b - a + 1)
  with the always-nonnegative integer emod, which always lands in [a, b].
- distance comparisons sqrt d < r (resp. > r) in the source are modelled
  squared, d < r * r (resp. >), which is equivalent for nonnegative r.
-/

/-- Playfield width, SCREEN_WIDTH in the source. -/
def SCREEN_WIDTH : ℚ := 800

/-- Playfield height, SCREEN_HEIGHT in the source. -/
def SCREEN_HEIGHT : ℚ := 600

inductive GameState where
  | MENU
  | PLAYING
  | GAME_OVER
  | PAUSED
deriving DecidableEq, Repr

inductive DamageType where
  | ASTEROID
  | ALIEN_SHIP
  | ALIEN_BULLET
  | HYPERSPACE
deriving DecidableEq, Repr

/-- 2D vector with rational components (class Vector2 in the source). -/
structure Vector2 where
  x : ℚ
  y : ℚ
deriving DecidableEq, Repr

/-- Vector addition (Vector2.__add__). -/
def Vector2.add (a b : Vector2) : Vector2 := ⟨a.x + b.x, a.y + b.y⟩

/-- Scalar multiplication (Vector2.__mul__). -/
def Vector2.smul (v : Vector2) (c : ℚ) : Vector2 := ⟨v.x * c, v.y * c⟩

/-- Squared Euclidean distance between two points.  The source computes
math.sqrt of this quantity and compares it with a nonnegative bound; all such
comparisons are modelled on the squares. -/
def distSq (p q : Vector2) : ℚ := (p.x - q.x) * (p.x - q.x) + (p.y - q.y) * (p.y - q.y)

/-- Python's modulo on rationals: a % b = a - b * floor (a / b).
For b > 0 the result lies in [0, b), also for negative a. -/
def pymod (a b : ℚ) : ℚ := a - b * ⌊a / b⌋

/-- Toroidal wrap of a position onto the playfield
(the two % assignments in GameObject.update). -/
def wrapPos (p : Vector2) : Vector2 := ⟨pymod p.x SCREEN_WIDTH, pymod p.y SCREEN_HEIGHT⟩

/-- GameObject.update: advance the position by velocity * dt, then wrap. -/
def moveWrap (p v : Vector2) (dt : ℚ) : Vector2 := wrapPos (p.add (v.smul dt))

/-- GameObject.collides_with, on the raw fields of the two objects: false if
either is inactive, else compare (squared) center distance against the
(squared) sum of the radii. -/
def collidesWith (p1 : Vector2) (r1 : ℚ) (a1 : Bool) (p2 : Vector2) (r2 : ℚ) (a2 : Bool) : Bool :=
  a1 && a2 && decide (distSq p1 p2 < (r1 + r2) * (r1 + r2))

/-- Explicit source of randomness: a stream of rationals together with the
index of the next draw. -/
structure Rng where
  stream : ℕ → ℚ
  idx : ℕ

/-- Pull one raw draw off the stream. -/
def Rng.next (r : Rng) : ℚ × Rng := (r.stream r.idx, ⟨r.stream, r.idx + 1⟩)

/-- A stream is valid when every raw draw lies in [0, 1]; such a stream
models genuine uniform(0, 1) samples. -/
def Rng.valid (r : Rng) : Prop := ∀ n, 0 ≤ r.stream n ∧ r.stream n ≤ 1

/-- random.uniform(a, b): affine image of a raw draw. -/
def randUniform (a b : ℚ) (r : Rng) : ℚ × Rng :=
  let (u, r') := r.next
  (a + (b - a) * u, r')

/-- random.randint(a, b): an integer in [a, b] selected by a raw draw. -/
def randInt (a b : ℤ) (r : Rng) : ℤ × Rng :=
  let (u, r') := r.next
  (a + ⌊u⌋ % (b - a + 1), r')

/-- random.random(): one raw draw. -/
def randFloat (r : Rng) : ℚ × Rng := r.next

/-- Abstract degree-based trigonometry, standing for math.sin/math.cos on
math.radians of the argument, and math.degrees of math.atan2. -/
structure Trig where
  sinD : ℚ → ℚ
  cosD : ℚ → ℚ
  atan2D : ℚ → ℚ → ℚ

/-- The velocity vector the source builds from a heading angle (degrees) and a
speed: (sin angle * speed, -cos angle * speed). -/
def velFromAngle (T : Trig) (angle speed : ℚ) : Vector2 :=
  ⟨T.sinD angle * speed, -(T.cosD angle) * speed⟩

/-- The player ship (class Ship), gameplay fields only; the constant triangle
outline used for drawing is omitted. -/
structure Ship where
  position : Vector2
  velocity : Vector2
  rotation : ℚ
  radius : ℚ
  active : Bool
  thrust_power : ℚ
  rotation_speed : ℚ
  max_speed : ℚ
  fuel : ℚ
  max_fuel : ℚ
  invulnerable_time : ℚ
  hyperspace_cooldown : ℚ
  hit_flash_time : ℚ
  flash_intensity : ℚ
  damage_type : Option DamageType
  max_health : ℤ
  health : ℤ
deriving DecidableEq, Repr

/-- Ship.__init__. -/
def Ship.new (x y : ℚ) : Ship :=
  { position := ⟨x, y⟩
    velocity := ⟨0, 0⟩
    rotation := 0
    radius := 8
    active := true
    thrust_power := 200
    rotation_speed := 300
    max_speed := 300
    fuel := 1000
    max_fuel := 1000
    invulnerable_time := 0
    hyperspace_cooldown := 0
    hit_flash_time := 0
    flash_intensity := 0
    damage_type := none
    max_health := 3
    health := 3 }

/-- Ship.update: move and wrap, count the three timers down (each only while
it is positive), recompute the flash intensity, apply drag 0.98. -/
def Ship.update (s : Ship) (dt : ℚ) : Ship :=
  let pos := moveWrap s.position s.velocity dt
  let invuln := if s.invulnerable_time > 0 then s.invulnerable_time - dt else s.invulnerable_time
  let cooldown :=
    if s.hyperspace_cooldown > 0 then s.hyperspace_cooldown - dt else s.hyperspace_cooldown
  let vel := s.velocity.smul (98/100)
  if s.hit_flash_time > 0 then
    let hft := s.hit_flash_time - dt
    { s with
        position := pos, invulnerable_time := invuln, hyperspace_cooldown := cooldown,
        hit_flash_time := hft, flash_intensity := max 0 (hft / 1), velocity := vel }
  else
    { s with
        position := pos, invulnerable_time := invuln, hyperspace_cooldown := cooldown,
        flash_intensity := 0, damage_type := none, velocity := vel }

/-- Ship.take_hit: a no-op returning false while invulnerable; otherwise
subtract the damage from health, start a 1-second flash at full intensity,
record the damage type, grant 2 seconds of invulnerability, and report whether
the resulting health is <= 0.  (The sound call is presentation only.) -/
def Ship.take_hit (s : Ship) (d : DamageType) (dmg : ℤ) : Ship × Bool :=
  if s.invulnerable_time > 0 then (s, false)
  else
    let s' := { s with
      health := s.health - dmg
      hit_flash_time := 1
      flash_intensity := 1
      damage_type := some d
      invulnerable_time := 2 }
    (s', decide (s'.health ≤ 0))

/-- Ship.hyperspace: if the cooldown has elapsed, teleport to a random point
in [50, 750] x [50, 550], zero the velocity, set the cooldown to 3 seconds,
and with probability 0.1 call take_hit with damage equal to the current
health; returns false exactly on that self-destruct branch. -/
def Ship.hyperspace (s : Ship) (r : Rng) : Ship × Bool × Rng :=
  if s.hyperspace_cooldown ≤ 0 then
    let (x, r1) := randInt 50 750 r
    let (y, r2) := randInt 50 550 r1
    let s1 := { s with
      position := ⟨(x : ℚ), (y : ℚ)⟩
      velocity := ⟨0, 0⟩
      hyperspace_cooldown := 3 }
    let (p, r3) := randFloat r2
    if p < 1/10 then
      let (s2, destroyed) := s1.take_hit DamageType.HYPERSPACE s1.health
      let s3 := if destroyed then { s2 with active := false } else s2
      (s3, false, r3)
    else
      (s1, true, r3)
  else
    (s, true, r)

/-- A bullet (class Bullet), both player and alien bullets. -/
structure Bullet where
  position : Vector2
  velocity : Vector2
  rotation : ℚ
  radius : ℚ
  active : Bool
  lifetime : ℚ
deriving DecidableEq, Repr

/-- Bullet.__init__: spawn at the given point with speed 400 along the given
heading, 2 second lifetime. -/
def Bullet.new (T : Trig) (x y rot : ℚ) : Bullet :=
  { position := ⟨x, y⟩
    velocity := velFromAngle T rot 400
    rotation := 0
    radius := 2
    active := true
    lifetime := 2 }

/-- Bullet.update: move and wrap, count the lifetime down, deactivate at 0. -/
def Bullet.update (b : Bullet) (dt : ℚ) : Bullet :=
  let pos := moveWrap b.position b.velocity dt
  let lt := b.lifetime - dt
  { b with position := pos, lifetime := lt, active := if lt ≤ 0 then false else b.active }

/-- An asteroid (class Asteroid). -/
structure Asteroid where
  position : Vector2
  velocity : Vector2
  rotation : ℚ
  radius : ℚ
  active : Bool
  size : ℤ
  rotation_speed : ℚ
  shape : List Vector2
deriving DecidableEq, Repr

/-- The shape loop in Asteroid.__init__: n further outline points starting at
vertex index i, each at angle 45 * index with the radius jittered by an
independent uniform(0.7, 1.3) draw. -/
def asteroidShapePoints (T : Trig) (radius : ℚ) : ℕ → ℕ → Rng → (List Vector2 × Rng)
  | 0, _, r => ([], r)
  | n + 1, i, r =>
    let angle : ℚ := (360 / 8) * i
    let (v, r1) := randUniform (7/10) (13/10) r
    let rad := radius * v
    let p : Vector2 := ⟨T.sinD angle * rad, -(T.cosD angle) * rad⟩
    let (rest, r2) := asteroidShapePoints T radius n (i + 1) r1
    (p :: rest, r2)

/-- Asteroid.__init__: radius 10 + 8 * size, random rotation speed, random
velocity of speed uniform(20, 80) at a uniform angle, and an 8-point jittered
outline. -/
def Asteroid.new (T : Trig) (x y : ℚ) (size : ℤ) (r : Rng) : Asteroid × Rng :=
  let radius : ℚ := 10 + (size : ℚ) * 8
  let (rs, r1) := randUniform (-180) 180 r
  let (speed, r2) := randUniform 20 80 r1
  let (angle, r3) := randUniform 0 360 r2
  let (shape, r4) := asteroidShapePoints T radius 8 0 r3
  ({ position := ⟨x, y⟩
     velocity := velFromAngle T angle speed
     rotation := 0
     radius := radius
     active := true
     size := size
     rotation_speed := rs
     shape := shape }, r4)

/-- Asteroid.update: move and wrap, spin by rotation_speed * dt. -/
def Asteroid.update (a : Asteroid) (dt : ℚ) : Asteroid :=
  { a with
      position := moveWrap a.position a.velocity dt
      rotation := a.rotation + a.rotation_speed * dt }

/-- The loop body of Asteroid.split, run n times: construct a child asteroid
at (x, y) of the given size, then overwrite its velocity with a fresh speed
uniform(40, 120) at a fresh uniform angle. -/
def splitChildren (T : Trig) (x y : ℚ) (size : ℤ) : ℕ → Rng → (List Asteroid × Rng)
  | 0, r => ([], r)
  | n + 1, r =>
    let (a0, r1) := Asteroid.new T x y size r
    let (speed, r2) := randUniform 40 120 r1
    let (angle, r3) := randUniform 0 360 r2
    let child := { a0 with velocity := velFromAngle T angle speed }
    let (rest, r4) := splitChildren T x y size n r3
    (child :: rest, r4)

/-- Asteroid.split: nothing for size <= 1, otherwise randint(2, 3) children of
size - 1 at this asteroid's position. -/
def Asteroid.split (T : Trig) (a : Asteroid) (r : Rng) : List Asteroid × Rng :=
  if a.size ≤ 1 then ([], r)
  else
    let (n, r1) := randInt 2 3 r
    splitChildren T a.position.x a.position.y (a.size - 1) n.toNat r1

/-- An alien ship (class AlienShip). -/
structure AlienShip where
  position : Vector2
  velocity : Vector2
  rotation : ℚ
  radius : ℚ
  active : Bool
  shoot_timer : ℚ
  shoot_interval : ℚ
  direction_timer : ℚ
  direction_interval : ℚ
deriving DecidableEq, Repr

/-- AlienShip.__init__. -/
def AlienShip.new (T : Trig) (x y : ℚ) (r : Rng) : AlienShip × Rng :=
  let (si, r1) := randUniform (3/2) 3 r
  let (di, r2) := randUniform 2 4 r1
  let (speed, r3) := randUniform 50 100 r2
  let (angle, r4) := randUniform 0 360 r3
  ({ position := ⟨x, y⟩
     velocity := velFromAngle T angle speed
     rotation := 0
     radius := 12
     active := true
     shoot_timer := 0
     shoot_interval := si
     direction_timer := 0
     direction_interval := di }, r4)

/-- AlienShip.update: move and wrap, advance both timers, and when the
direction timer expires pick a fresh random heading and interval. -/
def AlienShip.update (T : Trig) (al : AlienShip) (dt : ℚ) (r : Rng) : AlienShip × Rng :=
  let pos := moveWrap al.position al.velocity dt
  let st := al.shoot_timer + dt
  let dtm := al.direction_timer + dt
  if dtm ≥ al.direction_interval then
    let (speed, r1) := randUniform 50 100 r
    let (angle, r2) := randUniform 0 360 r1
    let (di, r3) := randUniform 2 4 r2
    ({ al with
        position := pos, shoot_timer := st, velocity := velFromAngle T angle speed,
        direction_timer := 0, direction_interval := di }, r3)
  else
    ({ al with position := pos, shoot_timer := st, direction_timer := dtm }, r)

/-- AlienShip.should_shoot: polling check that fires and re-randomizes the
interval once the timer reaches it. -/
def AlienShip.should_shoot (al : AlienShip) (r : Rng) : Bool × AlienShip × Rng :=
  if al.shoot_timer ≥ al.shoot_interval then
    let (iv, r') := randUniform (3/2) 3 r
    (true, { al with shoot_timer := 0, shoot_interval := iv }, r')
  else
    (false, al, r)

/-- AlienShip.get_shoot_angle: bearing to the target by atan2(dx, -dy) in
degrees, plus uniform(-30, 30) noise. -/
def AlienShip.get_shoot_angle (T : Trig) (al : AlienShip) (target : Vector2) (r : Rng) : ℚ × Rng :=
  let dx := target.x - al.position.x
  let dy := target.y - al.position.y
  let angle := T.atan2D dx (-dy)
  let (noise, r') := randUniform (-30) 30 r
  (angle + noise, r')

/-- The game-state container (class Game), simulation fields only. -/
structure Game where
  state : GameState
  score : ℤ
  lives : ℤ
  level : ℤ
  ship : Option Ship
  bullets : List Bullet
  asteroids : List Asteroid
  alien_ships : List AlienShip
  alien_bullets : List Bullet
  alien_spawn_timer : ℚ
  alien_spawn_interval : ℚ
deriving DecidableEq, Repr

/-- The ship Game.start_level and the respawn sites construct: a fresh Ship at
the playfield center with 2 seconds of invulnerability and full health. -/
def centerShip : Ship :=
  let s := Ship.new (400) (300)
  { s with invulnerable_time := 2, health := s.max_health }

/-- Score awarded for an asteroid, score_values.get(size, 20) in
Game.check_collisions. -/
def scoreValue (size : ℤ) : ℤ :=
  match size with
  | 1 => 100
  | 2 => 50
  | 3 => 20
  | _ => 20

/-- collides_with between a bullet and an asteroid. -/
def bulletHitsAsteroid (b : Bullet) (a : Asteroid) : Bool :=
  collidesWith b.position b.radius b.active a.position a.radius a.active

/-- collides_with between a bullet and an alien ship. -/
def bulletHitsAlien (b : Bullet) (al : AlienShip) : Bool :=
  collidesWith b.position b.radius b.active al.position al.radius al.active

/-- collides_with between the ship and an asteroid. -/
def shipHitsAsteroid (s : Ship) (a : Asteroid) : Bool :=
  collidesWith s.position s.radius s.active a.position a.radius a.active

/-- collides_with between the ship and an alien ship. -/
def shipHitsAlien (s : Ship) (al : AlienShip) : Bool :=
  collidesWith s.position s.radius s.active al.position al.radius al.active

/-- collides_with between the ship and an alien bullet. -/
def shipHitsBullet (s : Ship) (b : Bullet) : Bool :=
  collidesWith s.position s.radius s.active b.position b.radius b.active

/-- Inner loop of collision pass 1 for one bullet: scan the asteroid list for
the first collision; on a hit, deactivate the asteroid, append its split
children at the end of the whole list, drop the hit asteroid, and report the
hit together with the score to add. -/
def bulletAsteroidScan (T : Trig) (b : Bullet) :
    List Asteroid → ℤ → Rng → (Bool × List Asteroid × ℤ × Rng)
  | [], sc, r => (false, [], sc, r)
  | a :: rest, sc, r =>
    if bulletHitsAsteroid b a then
      let aDead := { a with active := false }
      let (children, r') := Asteroid.split T aDead r
      (true, rest ++ children, sc + scoreValue a.size, r')
    else
      let (hit, rest', sc', r') := bulletAsteroidScan T b rest sc r
      (hit, a :: rest', sc', r')

/-- Collision pass 1 (player bullets vs. asteroids): each bullet is checked
against the current asteroid list; a bullet that hits is deactivated and
removed (dropped from the returned list), and the inner loop breaks after
its first hit. -/
def bulletsVsAsteroids (T : Trig) :
    List Bullet → List Asteroid → ℤ → Rng → (List Bullet × List Asteroid × ℤ × Rng)
  | [], asts, sc, r => ([], asts, sc, r)
  | b :: bs, asts, sc, r =>
    let (hit, asts1, sc1, r1) := bulletAsteroidScan T b asts sc r
    let (bs', asts2, sc2, r2) := bulletsVsAsteroids T bs asts1 sc1 r1
    (if hit then bs' else b :: bs', asts2, sc2, r2)

/-- Inner loop of collision pass 2 for one bullet: first colliding alien ship
is deactivated and removed. -/
def bulletAlienScan (b : Bullet) : List AlienShip → (Bool × List AlienShip)
  | [] => (false, [])
  | al :: rest =>
    if bulletHitsAlien b al then
      (true, rest)
    else
      let (hit, rest') := bulletAlienScan b rest
      (hit, al :: rest')

/-- Collision pass 2 (player bullets vs. alien ships): 500 points per hit; the
hitting bullet is deactivated and removed. -/
def bulletsVsAliens : List Bullet → List AlienShip → ℤ → (List Bullet × List AlienShip × ℤ)
  | [], als, sc => ([], als, sc)
  | b :: bs, als, sc =>
    let (hit, als1) := bulletAlienScan b als
    let sc1 := if hit then sc + 500 else sc
    let (bs', als2, sc2) := bulletsVsAliens bs als1 sc1
    (if hit then bs' else b :: bs', als2, sc2)

/-- Apply take_hit to the ship and deactivate it when destroyed, the common
pattern of collision passes 3, 4 and 5. -/
def applyHit (s : Ship) (d : DamageType) (dmg : ℤ) : Ship :=
  let res := s.take_hit d dmg
  if res.2 then { res.1 with active := false } else res.1

/-- Collision pass 3 (ship vs. asteroids): guarded on the ship being present,
active and not invulnerable; one asteroid damage for the first overlap, the
asteroid itself untouched. -/
def Game.shipVsAsteroids (g : Game) : Game :=
  match g.ship with
  | none => g
  | some s =>
    if s.active = true ∧ s.invulnerable_time ≤ 0 then
      if g.asteroids.any (fun a => shipHitsAsteroid s a) then
        { g with ship := some (applyHit s DamageType.ASTEROID 1) }
      else g
    else g

/-- Inner loop of collision pass 4: the first colliding alien ship is
deactivated in place (it is swept from the list only on the next tick). -/
def shipAlienScan (s : Ship) : List AlienShip → (Bool × List AlienShip)
  | [] => (false, [])
  | al :: rest =>
    if shipHitsAlien s al then
      (true, { al with active := false } :: rest)
    else
      let (hit, rest') := shipAlienScan s rest
      (hit, al :: rest')

/-- Collision pass 4 (ship vs. alien ships): same guard as pass 3; two damage
of type ALIEN_SHIP for the first overlap, the alien deactivated. -/
def Game.shipVsAliens (g : Game) : Game :=
  match g.ship with
  | none => g
  | some s =>
    if s.active = true ∧ s.invulnerable_time ≤ 0 then
      let (hit, als') := shipAlienScan s g.alien_ships
      if hit then
        { g with ship := some (applyHit s DamageType.ALIEN_SHIP 2), alien_ships := als' }
      else g
    else g

/-- Inner loop of collision pass 5: the first colliding alien bullet is
deactivated and removed. -/
def shipBulletScan (s : Ship) : List Bullet → (Bool × List Bullet)
  | [] => (false, [])
  | b :: rest =>
    if shipHitsBullet s b then
      (true, rest)
    else
      let (hit, rest') := shipBulletScan s rest
      (hit, b :: rest')

/-- Collision pass 5 (ship vs. alien bullets): same guard; one damage of type
ALIEN_BULLET for the first overlap, the bullet deactivated and removed. -/
def Game.shipVsAlienBullets (g : Game) : Game :=
  match g.ship with
  | none => g
  | some s =>
    if s.active = true ∧ s.invulnerable_time ≤ 0 then
      let (hit, abs') := shipBulletScan s g.alien_bullets
      if hit then
        { g with ship := some (applyHit s DamageType.ALIEN_BULLET 1), alien_bullets := abs' }
      else g
    else g

/-- Game.check_collisions: the five passes in source order. -/
def Game.check_collisions (T : Trig) (g : Game) (r : Rng) : Game × Rng :=
  let p1 := bulletsVsAsteroids T g.bullets g.asteroids g.score r
  let p2 := bulletsVsAliens p1.1 g.alien_ships p1.2.2.1
  let g1 := { g with bullets := p2.1, asteroids := p1.2.1, alien_ships := p2.2.1, score := p2.2.2 }
  (((g1.shipVsAsteroids).shipVsAliens).shipVsAlienBullets, p1.2.2.2)

/-- The rejection-sampling loop of Game.start_level for one asteroid, bounded
by an explicit fuel: repeatedly draw a point randint(50, 750) x
randint(50, 550) until its distance to the ship spawn point exceeds 100, then
construct a size-3 asteroid there.  none models fuel exhaustion (the source
loops until success). -/
def placeAsteroid (T : Trig) (shipPos : Vector2) : ℕ → Rng → Option (Asteroid × Rng)
  | 0, _ => none
  | n + 1, r =>
    let px := randInt 50 750 r
    let py := randInt 50 550 px.2
    if distSq ⟨(px.1 : ℚ), (py.1 : ℚ)⟩ shipPos > 100 * 100 then
      some (Asteroid.new T (px.1 : ℚ) (py.1 : ℚ) 3 py.2)
    else
      placeAsteroid T shipPos n py.2

/-- The spawning loop of Game.start_level: count asteroids, each placed by the
rejection loop with the given fuel. -/
def spawnAsteroids (T : Trig) (shipPos : Vector2) (fuel : ℕ) :
    ℕ → Rng → Option (List Asteroid × Rng)
  | 0, r => some ([], r)
  | n + 1, r =>
    match placeAsteroid T shipPos fuel r with
    | none => none
    | some (a, r1) =>
      match spawnAsteroids T shipPos fuel n r1 with
      | none => none
      | some (rest, r2) => some (a :: rest, r2)

/-- Game.start_level: fresh centered ship with 2 s invulnerability and full
health, clear bullets and alien state, repopulate the asteroid list with
4 + level size-3 asteroids placed away from the ship, reset the alien spawn
timer. -/
def Game.start_level (T : Trig) (fuel : ℕ) (g : Game) (r : Rng) : Option (Game × Rng) :=
  let ship := centerShip
  match spawnAsteroids T ship.position fuel (4 + g.level).toNat r with
  | none => none
  | some (asts, r') =>
    some ({ g with
      ship := some ship
      bullets := []
      alien_ships := []
      alien_bullets := []
      asteroids := asts
      alien_spawn_timer := 0 }, r')

/-- Game.spawn_alien: pick one of the four screen edges, a random point on it,
and append a new alien ship there. -/
def Game.spawn_alien (T : Trig) (g : Game) (r : Rng) : Game × Rng :=
  let side := (randInt 0 3 r).1
  let r1 := (randInt 0 3 r).2
  let pr : Vector2 × Rng :=
    if side = 0 then
      (Vector2.mk ((randInt 0 800 r1).1 : ℚ) 0, (randInt 0 800 r1).2)
    else if side = 1 then
      (Vector2.mk 800 ((randInt 0 600 r1).1 : ℚ), (randInt 0 600 r1).2)
    else if side = 2 then
      (Vector2.mk ((randInt 0 800 r1).1 : ℚ) 600, (randInt 0 800 r1).2)
    else
      (Vector2.mk 0 ((randInt 0 600 r1).1 : ℚ), (randInt 0 600 r1).2)
  let na := AlienShip.new T pr.1.x pr.1.y pr.2
  ({ g with alien_ships := g.alien_ships ++ [na.1] }, na.2)

/-- The alien-ship update loop in Game.update: update each alien, drop the
inactive ones, and let each surviving alien poll should_shoot and, when it
fires and the player ship is present and active, emit an alien bullet aimed
at the ship. -/
def updateAliens (T : Trig) (shipOpt : Option Ship) (dt : ℚ) :
    List AlienShip → Rng → (List AlienShip × List Bullet × Rng)
  | [], r => ([], [], r)
  | al :: rest, r =>
    let u := AlienShip.update T al dt r
    if u.1.active = false then
      updateAliens T shipOpt dt rest u.2
    else
      let sres := u.1.should_shoot u.2
      match shipOpt with
      | some s =>
        if sres.1 && s.active then
          let ares := sres.2.1.get_shoot_angle T s.position sres.2.2
          let nb := Bullet.new T sres.2.1.position.x sres.2.1.position.y ares.1
          let rec1 := updateAliens T shipOpt dt rest ares.2
          (sres.2.1 :: rec1.1, nb :: rec1.2.1, rec1.2.2)
        else
          let rec1 := updateAliens T shipOpt dt rest sres.2.2
          (sres.2.1 :: rec1.1, rec1.2.1, rec1.2.2)
      | none =>
        let rec1 := updateAliens T shipOpt dt rest sres.2.2
        (sres.2.1 :: rec1.1, rec1.2.1, rec1.2.2)

/-- The entity-update and spawning phases of Game.update (everything between
the PLAYING guard and check_collisions): update the ship, bullets, asteroids,
alien ships (with their shots) and alien bullets, sweep inactive bullets, and
run the timed alien spawner. -/
def Game.advance (T : Trig) (g : Game) (dt : ℚ) (r : Rng) : Game × Rng :=
  let ship1 := g.ship.map (fun s => s.update dt)
  let bullets1 := (g.bullets.map (fun b => b.update dt)).filter (fun b => b.active)
  let asts1 := g.asteroids.map (fun a => a.update dt)
  let ua := updateAliens T ship1 dt g.alien_ships r
  let abullets1 :=
    ((g.alien_bullets ++ ua.2.1).map (fun b => b.update dt)).filter (fun b => b.active)
  let g1 : Game := { g with
    ship := ship1, bullets := bullets1, asteroids := asts1,
    alien_ships := ua.1, alien_bullets := abullets1,
    alien_spawn_timer := g.alien_spawn_timer + dt }
  if g1.alien_spawn_timer ≥ g1.alien_spawn_interval then
    let sa := g1.spawn_alien T ua.2.2
    ({ sa.1 with alien_spawn_timer := 0 }, sa.2)
  else
    (g1, ua.2.2)

/-- The state after the collision-resolution point of a PLAYING tick: entity
updates and spawns, then the five collision passes. -/
def Game.postCollisions (T : Trig) (g : Game) (dt : ℚ) (r : Rng) : Game × Rng :=
  let a := g.advance T dt r
  Game.check_collisions T a.1 a.2

/-- The level-completion check of Game.update: when both the asteroid list and
the alien-ship list are empty, increment the level and run start_level. -/
def Game.levelCheck (T : Trig) (fuel : ℕ) (g : Game) (r : Rng) : Option (Game × Rng) :=
  if g.asteroids = [] ∧ g.alien_ships = [] then
    Game.start_level T fuel { g with level := g.level + 1 } r
  else
    some (g, r)

/-- The life-loss check at the end of Game.update: when the ship is present
and inactive, decrement lives; at lives <= 0 go to GAME_OVER, otherwise
respawn a fresh centered ship. -/
def Game.lifeCheck (g : Game) : Game :=
  match g.ship with
  | none => g
  | some s =>
    if s.active = false then
      let lives' := g.lives - 1
      if lives' ≤ 0 then
        { g with lives := lives', state := GameState.GAME_OVER }
      else
        { g with lives := lives', ship := some centerShip }
    else g

/-- Game.update: a no-op outside the PLAYING state; otherwise entity updates
and spawns, collision resolution, the level-completion check, then the
life-loss check.  none only when the bounded rejection sampler inside
start_level runs out of fuel (the source loops until success). -/
def Game.update (T : Trig) (fuel : ℕ) (g : Game) (dt : ℚ) (r : Rng) : Option (Game × Rng) :=
  if g.state = GameState.PLAYING then
    let pc := g.postCollisions T dt r
    (Game.levelCheck T fuel pc.1 pc.2).map (fun p => (p.1.lifeCheck, p.2))
  else
    some (g, r)

/-- The playfield invariant on a position. -/
def inPlayfield (p : Vector2) : Prop :=
  0 ≤ p.x ∧ p.x < SCREEN_WIDTH ∧ 0 ≤ p.y ∧ p.y < SCREEN_HEIGHT

theorem pymod_bounds (a b : ℚ) (hb : 0 < b) : 0 ≤ pymod a b ∧ pymod a b < b := by
  have hfl : (⌊a / b⌋ : ℚ) ≤ a / b := Int.floor_le _
  have hlt : a / b < ⌊a / b⌋ + 1 := Int.lt_floor_add_one _
  constructor
  · have h1 : b * (⌊a / b⌋ : ℚ) ≤ b * (a / b) := mul_le_mul_of_nonneg_left hfl (le_of_lt hb)
    have h2 : b * (a / b) = a := by field_simp
    unfold pymod
    linarith
  · have h1 : a < ((⌊a / b⌋ : ℚ) + 1) * b := (div_lt_iff₀ hb).mp hlt
    unfold pymod
    linarith

theorem wrapPos_inPlayfield (p : Vector2) : inPlayfield (wrapPos p) := by
  have hx := pymod_bounds p.x SCREEN_WIDTH (by norm_num [SCREEN_WIDTH])
  have hy := pymod_bounds p.y SCREEN_HEIGHT (by norm_num [SCREEN_HEIGHT])
  exact ⟨hx.1, hx.2, hy.1, hy.2⟩

theorem moveWrap_inPlayfield (p v : Vector2) (dt : ℚ) : inPlayfield (moveWrap p v dt) :=
  wrapPos_inPlayfield _

theorem ship_update_position_eq (s : Ship) (dt : ℚ) :
    (s.update dt).position = moveWrap s.position s.velocity dt := by
  unfold Ship.update
  dsimp only
  split <;> rfl

theorem bullet_update_position_eq (b : Bullet) (dt : ℚ) :
    (b.update dt).position = moveWrap b.position b.velocity dt := rfl

theorem asteroid_update_position_eq (a : Asteroid) (dt : ℚ) :
    (a.update dt).position = moveWrap a.position a.velocity dt := rfl

theorem alien_update_position_eq (T : Trig) (al : AlienShip) (dt : ℚ) (r : Rng) :
    (AlienShip.update T al dt r).1.position = moveWrap al.position al.velocity dt := by
  unfold AlienShip.update
  dsimp only
  split <;> rfl

/-- C1: for every entity kind (Ship, Bullet, Asteroid, AlienShip) and every
prior position, velocity and dt, including negative-direction motion, the
position after update(dt) satisfies 0 <= x < 800 and 0 <= y < 600: the wrap
is a true modulo, so negative coordinates land back in the positive range. -/
theorem update_position_in_playfield (T : Trig) (s : Ship) (b : Bullet) (a : Asteroid)
    (al : AlienShip) (dt : ℚ) (r : Rng) :
    inPlayfield (s.update dt).position ∧ inPlayfield (b.update dt).position ∧
    inPlayfield (a.update dt).position ∧ inPlayfield (AlienShip.update T al dt r).1.position := by
  refine ⟨?_, ?_, ?_, ?_⟩
  · rw [ship_update_position_eq]; exact moveWrap_inPlayfield _ _ _
  · rw [bullet_update_position_eq]; exact moveWrap_inPlayfield _ _ _
  · rw [asteroid_update_position_eq]; exact moveWrap_inPlayfield _ _ _
  · rw [alien_update_position_eq]; exact moveWrap_inPlayfield _ _ _

/-- C2: take_hit is a no-op returning false exactly while invulnerable_time is
positive; otherwise it lowers health by exactly the damage, resets the
invulnerability window to 2 s, starts a 1 s flash at full intensity, records
the damage type, and returns true iff the resulting health is <= 0. -/
theorem take_hit_spec (s : Ship) (d : DamageType) (dmg : ℤ) :
    (0 < s.invulnerable_time → s.take_hit d dmg = (s, false)) ∧
    (s.invulnerable_time ≤ 0 →
      (s.take_hit d dmg).1.health = s.health - dmg ∧
      (s.take_hit d dmg).1.invulnerable_time = 2 ∧
      (s.take_hit d dmg).1.hit_flash_time = 1 ∧
      (s.take_hit d dmg).1.flash_intensity = 1 ∧
      (s.take_hit d dmg).1.damage_type = some d ∧
      ((s.take_hit d dmg).2 = true ↔ s.health - dmg ≤ 0)) := by
  constructor
  · intro h
    unfold Ship.take_hit
    rw [if_pos h]
  · intro h
    unfold Ship.take_hit
    rw [if_neg (not_lt.mpr h)]
    refine ⟨rfl, rfl, rfl, rfl, rfl, ?_⟩
    simp

theorem take_hit_spec_witness :
    (Ship.take_hit { Ship.new 400 300 with invulnerable_time := 1 } DamageType.ASTEROID 1
      = ({ Ship.new 400 300 with invulnerable_time := 1 }, false)) ∧
    (((Ship.new 400 300).take_hit DamageType.ALIEN_SHIP 2).1.health
        = (Ship.new 400 300).health - 2 ∧
      ((Ship.new 400 300).take_hit DamageType.ALIEN_SHIP 2).1.invulnerable_time = 2 ∧
      ((Ship.new 400 300).take_hit DamageType.ALIEN_SHIP 2).1.hit_flash_time = 1 ∧
      ((Ship.new 400 300).take_hit DamageType.ALIEN_SHIP 2).1.flash_intensity = 1 ∧
      ((Ship.new 400 300).take_hit DamageType.ALIEN_SHIP 2).1.damage_type
        = some DamageType.ALIEN_SHIP ∧
      (((Ship.new 400 300).take_hit DamageType.ALIEN_SHIP 2).2 = true
        ↔ (Ship.new 400 300).health - 2 ≤ 0)) :=
  ⟨(take_hit_spec { Ship.new 400 300 with invulnerable_time := 1 } DamageType.ASTEROID 1).1
      (by norm_num),
   (take_hit_spec (Ship.new 400 300) DamageType.ALIEN_SHIP 2).2 (by norm_num [Ship.new])⟩

/-- C8: with the cooldown elapsed but the ship still invulnerable, the
10 percent self-destruct branch of hyperspace leaves health and the active
flag unchanged (take_hit is gated by the invulnerability), yet hyperspace
still returns false on that branch. -/
theorem hyperspace_invulnerable_branch (s : Ship) (r : Rng)
    (hcd : s.hyperspace_cooldown ≤ 0) (hinv : 0 < s.invulnerable_time)
    (hp : r.stream (r.idx + 2) < 1/10) :
    (s.hyperspace r).1.health = s.health ∧
    (s.hyperspace r).1.active = s.active ∧
    (s.hyperspace r).2.1 = false := by
  unfold Ship.hyperspace
  rw [if_pos hcd]
  simp only [randInt, randFloat, Rng.next]
  rw [if_pos hp]
  unfold Ship.take_hit
  simp only [if_pos hinv]
  simp

theorem hyperspace_invulnerable_branch_witness :
    (({ Ship.new 400 300 with invulnerable_time := 1 }).hyperspace ⟨fun _ => 0, 0⟩).1.health
      = ({ Ship.new 400 300 with invulnerable_time := 1 } : Ship).health ∧
    (({ Ship.new 400 300 with invulnerable_time := 1 }).hyperspace ⟨fun _ => 0, 0⟩).1.active
      = ({ Ship.new 400 300 with invulnerable_time := 1 } : Ship).active ∧
    (({ Ship.new 400 300 with invulnerable_time := 1 }).hyperspace ⟨fun _ => 0, 0⟩).2.1 = false :=
  hyperspace_invulnerable_branch { Ship.new 400 300 with invulnerable_time := 1 }
    ⟨fun _ => 0, 0⟩ (by norm_num [Ship.new]) (by norm_num) (by norm_num)

theorem Ship.update_invulnerable_time (s : Ship) (dt : ℚ) :
    (s.update dt).invulnerable_time =
      if 0 < s.invulnerable_time then s.invulnerable_time - dt else s.invulnerable_time := by
  unfold Ship.update
  dsimp only
  split <;> rfl

theorem Ship.update_hyperspace_cooldown (s : Ship) (dt : ℚ) :
    (s.update dt).hyperspace_cooldown =
      if 0 < s.hyperspace_cooldown then s.hyperspace_cooldown - dt else s.hyperspace_cooldown := by
  unfold Ship.update
  dsimp only
  split <;> rfl

/-- C9 counterexample: a ship with 2 s of invulnerability updated with dt = 3
ends the tick with invulnerable_time = -1 < 0, so the timers are not always
nonnegative. -/
theorem invulnerable_time_negative_after_update :
    ¬ 0 ≤ (({ Ship.new 400 300 with invulnerable_time := 2 }).update 3).invulnerable_time := by
  rw [Ship.update_invulnerable_time]
  norm_num [Ship.new]

/-- C9 amended: the timers are not floored at 0; instead, update(dt) with
dt >= 0 decrements a timer only while it is positive (a timer at or below 0
is left unchanged), so each timer loses at most dt per tick and can cross
zero at most once; take_hit always leaves invulnerable_time strictly positive
and never touches hyperspace_cooldown, and hyperspace always leaves
hyperspace_cooldown strictly positive. -/
theorem timers_floored_behaviour (s : Ship) (dt : ℚ) (d : DamageType) (dmg : ℤ) (r : Rng)
    (hdt : 0 ≤ dt) :
    (s.invulnerable_time - dt ≤ (s.update dt).invulnerable_time ∧
      (s.update dt).invulnerable_time ≤ s.invulnerable_time) ∧
    (s.invulnerable_time ≤ 0 → (s.update dt).invulnerable_time = s.invulnerable_time) ∧
    (s.hyperspace_cooldown - dt ≤ (s.update dt).hyperspace_cooldown ∧
      (s.update dt).hyperspace_cooldown ≤ s.hyperspace_cooldown) ∧
    (s.hyperspace_cooldown ≤ 0 → (s.update dt).hyperspace_cooldown = s.hyperspace_cooldown) ∧
    0 < (s.take_hit d dmg).1.invulnerable_time ∧
    (s.take_hit d dmg).1.hyperspace_cooldown = s.hyperspace_cooldown ∧
    0 < (s.hyperspace r).1.hyperspace_cooldown := by
  rw [Ship.update_invulnerable_time, Ship.update_hyperspace_cooldown]
  refine ⟨?_, ?_, ?_, ?_, ?_, ?_, ?_⟩
  · split <;> constructor <;> linarith
  · intro h
    rw [if_neg (not_lt.mpr h)]
  · split <;> constructor <;> linarith
  · intro h
    rw [if_neg (not_lt.mpr h)]
  · unfold Ship.take_hit
    split
    · next h => exact h
    · norm_num
  · unfold Ship.take_hit
    split <;> rfl
  · unfold Ship.hyperspace
    simp only [randInt, randFloat, Rng.next]
    split
    · split
      · unfold Ship.take_hit
        split
        · split <;> norm_num
        · split <;> norm_num
      · norm_num
    · next h => linarith [not_le.mp h]

theorem timers_floored_behaviour_witness :
    ((2 : ℚ) - 3 ≤ (({ Ship.new 400 300 with invulnerable_time := 2 }).update 3).invulnerable_time ∧
      (({ Ship.new 400 300 with invulnerable_time := 2 }).update 3).invulnerable_time ≤ 2) ∧
    ((2 : ℚ) ≤ 0 →
      (({ Ship.new 400 300 with invulnerable_time := 2 }).update 3).invulnerable_time = 2) ∧
    ((0 : ℚ) - 3 ≤ (({ Ship.new 400 300 with invulnerable_time := 2 }).update 3).hyperspace_cooldown ∧
      (({ Ship.new 400 300 with invulnerable_time := 2 }).update 3).hyperspace_cooldown ≤ 0) ∧
    ((0 : ℚ) ≤ 0 →
      (({ Ship.new 400 300 with invulnerable_time := 2 }).update 3).hyperspace_cooldown = 0) ∧
    0 < (({ Ship.new 400 300 with invulnerable_time := 2 }).take_hit DamageType.ASTEROID 1).1.invulnerable_time ∧
    (({ Ship.new 400 300 with invulnerable_time := 2 }).take_hit DamageType.ASTEROID 1).1.hyperspace_cooldown = 0 ∧
    0 < (({ Ship.new 400 300 with invulnerable_time := 2 }).hyperspace ⟨fun _ => 0, 0⟩).1.hyperspace_cooldown := by
  have h := timers_floored_behaviour { Ship.new 400 300 with invulnerable_time := 2 } 3
    DamageType.ASTEROID 1 ⟨fun _ => 0, 0⟩ (by norm_num)
  simpa [Ship.new] using h

theorem take_hit_motion_frame (s : Ship) (d : DamageType) (dmg : ℤ) :
    (s.take_hit d dmg).1.position = s.position ∧
    (s.take_hit d dmg).1.velocity = s.velocity ∧
    (s.take_hit d dmg).1.rotation = s.rotation ∧
    (s.take_hit d dmg).1.fuel = s.fuel := by
  unfold Ship.take_hit
  split <;> exact ⟨rfl, rfl, rfl, rfl⟩

theorem applyHit_motion_frame (s : Ship) (d : DamageType) (dmg : ℤ) :
    (applyHit s d dmg).position = s.position ∧
    (applyHit s d dmg).velocity = s.velocity ∧
    (applyHit s d dmg).rotation = s.rotation ∧
    (applyHit s d dmg).fuel = s.fuel := by
  have h := take_hit_motion_frame s d dmg
  unfold applyHit
  dsimp only
  split
  · exact ⟨h.1, h.2.1, h.2.2.1, h.2.2.2⟩
  · exact ⟨h.1, h.2.1, h.2.2.1, h.2.2.2⟩

/-- C10: the ship-versus-asteroids pass leaves the asteroid collection (and
every other collection, the score and the level) entirely unchanged — the
rammed asteroid is neither deactivated, removed nor split — and changes
nothing of the ship's motion state (position, velocity, rotation, fuel). -/
theorem shipVsAsteroids_frame (g : Game) :
    (g.shipVsAsteroids).asteroids = g.asteroids ∧
    (g.shipVsAsteroids).bullets = g.bullets ∧
    (g.shipVsAsteroids).alien_ships = g.alien_ships ∧
    (g.shipVsAsteroids).alien_bullets = g.alien_bullets ∧
    (g.shipVsAsteroids).score = g.score ∧
    (g.shipVsAsteroids).level = g.level ∧
    ((g.shipVsAsteroids).ship.map fun s => (s.position, s.velocity, s.rotation, s.fuel))
      = (g.ship.map fun s => (s.position, s.velocity, s.rotation, s.fuel)) := by
  unfold Game.shipVsAsteroids
  cases hs : g.ship with
  | none => simp [hs]
  | some s =>
    dsimp only
    split
    · split
      · have h := applyHit_motion_frame s DamageType.ASTEROID 1
        refine ⟨rfl, rfl, rfl, rfl, rfl, rfl, ?_⟩
        simp [hs, h.1, h.2.1, h.2.2.1, h.2.2.2]
      · simp [hs]
    · simp [hs]

/-- The simulation fields of Game.__init__: menu state, zero score, three
lives, level 1, no ship, empty collections, alien spawner at 0 out of 20 s. -/
def initGame : Game :=
  { state := GameState.MENU
    score := 0
    lives := 3
    level := 1
    ship := none
    bullets := []
    asteroids := []
    alien_ships := []
    alien_bullets := []
    alien_spawn_timer := 0
    alien_spawn_interval := 20 }

/-- A concrete trigonometry instance used by the concrete evaluations below. -/
def sampleTrig : Trig := ⟨fun _ => 0, fun _ => 1, fun _ _ => 0⟩

/-- A concrete all-zero random stream used by the concrete evaluations below. -/
def sampleRng : Rng := ⟨fun _ => 0, 0⟩

theorem sampleRng_valid : sampleRng.valid := fun _ => ⟨le_refl 0, by norm_num [sampleRng]⟩

theorem randUniform_mem (a b : ℚ) (r : Rng) (hab : a ≤ b) (hv : r.valid) :
    a ≤ (randUniform a b r).1 ∧ (randUniform a b r).1 ≤ b := by
  have h := hv r.idx
  unfold randUniform Rng.next
  dsimp only
  constructor
  · nlinarith [h.1, h.2]
  · nlinarith [h.1, h.2]

theorem randInt_mem (a b : ℤ) (r : Rng) (hab : a ≤ b) :
    a ≤ (randInt a b r).1 ∧ (randInt a b r).1 ≤ b := by
  unfold randInt Rng.next
  dsimp only
  have h1 := Int.emod_nonneg ⌊r.stream r.idx⌋ (by omega : b - a + 1 ≠ 0)
  have h2 := Int.emod_lt_of_pos ⌊r.stream r.idx⌋ (by omega : (0 : ℤ) < b - a + 1)
  constructor
  · omega
  · omega

theorem splitChildren_spec (T : Trig) (x y : ℚ) (size : ℤ) :
    ∀ (n : ℕ) (r : Rng), r.valid →
      (splitChildren T x y size n r).1.length = n ∧
      ∀ c ∈ (splitChildren T x y size n r).1,
        c.size = size ∧ c.position = ⟨x, y⟩ ∧
        ∃ sp ang, 40 ≤ sp ∧ sp ≤ 120 ∧ c.velocity = velFromAngle T ang sp := by
  intro n
  induction n with
  | zero =>
    intro r hv
    exact ⟨rfl, by intro c hc; simp [splitChildren] at hc⟩
  | succ n ih =>
    intro r hv
    have hrec := ih ((randUniform 0 360
        ((randUniform 40 120 (Asteroid.new T x y size r).2).2)).2) (fun m => hv m)
    have hsp := randUniform_mem 40 120 (Asteroid.new T x y size r).2 (by norm_num)
      (fun m => hv m)
    constructor
    · exact congrArg (fun k => k + 1) hrec.1
    · intro c hc
      rcases List.mem_cons.mp hc with hhead | htail
      · subst hhead
        refine ⟨rfl, rfl, (randUniform 40 120 (Asteroid.new T x y size r).2).1,
          (randUniform 0 360 (randUniform 40 120 (Asteroid.new T x y size r).2).2).1,
          hsp.1, hsp.2, rfl⟩
      · exact hrec.2 c htail

/-- C3: split() on an asteroid of size greater than 1 yields 2 or 3 children,
each of size exactly parent.size - 1, at the parent's position, each with an
independently drawn velocity of speed in [40, 120] at a fresh angle; split()
on a size-1 (or smaller) asteroid yields the empty list and leaves the random
stream untouched. -/
theorem split_spec (T : Trig) (a : Asteroid) (r : Rng) (hv : r.valid) :
    (1 < a.size →
      ((Asteroid.split T a r).1.length = 2 ∨ (Asteroid.split T a r).1.length = 3) ∧
      ∀ c ∈ (Asteroid.split T a r).1,
        c.size = a.size - 1 ∧ c.position = a.position ∧
        ∃ sp ang, 40 ≤ sp ∧ sp ≤ 120 ∧ c.velocity = velFromAngle T ang sp) ∧
    (a.size ≤ 1 → Asteroid.split T a r = ([], r)) := by
  constructor
  · intro h
    unfold Asteroid.split
    rw [if_neg (not_le.mpr h)]
    have hn := randInt_mem 2 3 r (by norm_num)
    have hs := splitChildren_spec T a.position.x a.position.y (a.size - 1)
      (randInt 2 3 r).1.toNat (randInt 2 3 r).2 (fun m => hv m)
    constructor
    · have h23 : (randInt 2 3 r).1.toNat = 2 ∨ (randInt 2 3 r).1.toNat = 3 := by omega
      cases h23 with
      | inl h2 => exact Or.inl (by rw [hs.1, h2])
      | inr h3 => exact Or.inr (by rw [hs.1, h3])
    · intro c hc
      have hcp := hs.2 c hc
      exact ⟨hcp.1, hcp.2.1.trans rfl, hcp.2.2⟩
  · intro h
    unfold Asteroid.split
    rw [if_pos h]

theorem split_spec_witness :
    ((Asteroid.split sampleTrig
        { position := ⟨100, 100⟩, velocity := ⟨0, 0⟩, rotation := 0, radius := 26,
          active := true, size := 2, rotation_speed := 0, shape := [] } sampleRng).1.length = 2 ∨
      (Asteroid.split sampleTrig
        { position := ⟨100, 100⟩, velocity := ⟨0, 0⟩, rotation := 0, radius := 26,
          active := true, size := 2, rotation_speed := 0, shape := [] } sampleRng).1.length = 3) ∧
    (Asteroid.split sampleTrig
        { position := ⟨200, 200⟩, velocity := ⟨0, 0⟩, rotation := 0, radius := 18,
          active := true, size := 1, rotation_speed := 0, shape := [] } sampleRng) =
      ([], sampleRng) := by
  constructor
  · exact ((split_spec sampleTrig _ sampleRng sampleRng_valid).1 (by decide)).1
  · exact (split_spec sampleTrig _ sampleRng sampleRng_valid).2 (by decide)

theorem bulletAsteroidScan_hit (T : Trig) (b : Bullet) (a : Asteroid) :
    ∀ (pre : List Asteroid) (post : List Asteroid) (sc : ℤ) (r : Rng),
      (∀ x ∈ pre, bulletHitsAsteroid b x = false) →
      bulletHitsAsteroid b a = true →
      bulletAsteroidScan T b (pre ++ a :: post) sc r =
        (true, pre ++ (post ++ (Asteroid.split T { a with active := false } r).1),
          sc + scoreValue a.size, (Asteroid.split T { a with active := false } r).2) := by
  intro pre
  induction pre with
  | nil =>
    intro post sc r hpre hhit
    rcases hsplit : Asteroid.split T { a with active := false } r with ⟨cs, r2⟩
    simp [bulletAsteroidScan, hhit, hsplit]
  | cons x xs ih =>
    intro post sc r hpre hhit
    have hx : bulletHitsAsteroid b x = false := hpre x (List.mem_cons_self x xs)
    have hxs := ih post sc r (fun y hy => hpre y (List.mem_cons_of_mem x hy)) hhit
    simp [bulletAsteroidScan, hx, hxs]

theorem bulletAlienScan_hit (b : Bullet) (al : AlienShip) :
    ∀ (pre : List AlienShip) (post : List AlienShip),
      (∀ x ∈ pre, bulletHitsAlien b x = false) →
      bulletHitsAlien b al = true →
      bulletAlienScan b (pre ++ al :: post) = (true, pre ++ post) := by
  intro pre
  induction pre with
  | nil =>
    intro post hpre hhit
    simp [bulletAlienScan, hhit]
  | cons x xs ih =>
    intro post hpre hhit
    have hx : bulletHitsAlien b x = false := hpre x (List.mem_cons_self x xs)
    have hxs := ih post (fun y hy => hpre y (List.mem_cons_of_mem x hy)) hhit
    simp [bulletAlienScan, hx, hxs]

/-- C4: in collision resolution, a player bullet whose first colliding
asteroid is a deactivates and removes both, adds exactly scoreValue a.size to
the score (100 / 50 / 20 for sizes 1 / 2 / 3), and appends a's split()
children to the asteroid collection, at most one asteroid per bullet (the
scan stops at the first match); a player bullet whose first colliding alien
ship is al adds exactly 500 and removes exactly that bullet and that alien. -/
theorem collision_pass_scoring (T : Trig) (r : Rng) (sc sc2 : ℤ)
    (b : Bullet) (bs : List Bullet) (pre post : List Asteroid) (a : Asteroid)
    (b2 : Bullet) (bs2 : List Bullet) (pre2 post2 : List AlienShip) (al : AlienShip)
    (hpre : ∀ x ∈ pre, bulletHitsAsteroid b x = false)
    (hhit : bulletHitsAsteroid b a = true)
    (hpre2 : ∀ x ∈ pre2, bulletHitsAlien b2 x = false)
    (hhit2 : bulletHitsAlien b2 al = true) :
    (bulletsVsAsteroids T (b :: bs) (pre ++ a :: post) sc r =
      bulletsVsAsteroids T bs
        (pre ++ (post ++ (Asteroid.split T { a with active := false } r).1))
        (sc + scoreValue a.size)
        (Asteroid.split T { a with active := false } r).2) ∧
    scoreValue 1 = 100 ∧ scoreValue 2 = 50 ∧ scoreValue 3 = 20 ∧
    (bulletsVsAliens (b2 :: bs2) (pre2 ++ al :: post2) sc2 =
      bulletsVsAliens bs2 (pre2 ++ post2) (sc2 + 500)) := by
  refine ⟨?_, rfl, rfl, rfl, ?_⟩
  · have hscan := bulletAsteroidScan_hit T b a pre post sc r hpre hhit
    simp [bulletsVsAsteroids, hscan]
  · have hscan := bulletAlienScan_hit b2 al pre2 post2 hpre2 hhit2
    simp [bulletsVsAliens, hscan]

theorem collision_pass_scoring_witness :
    (bulletsVsAsteroids sampleTrig [Bullet.new sampleTrig 100 100 0]
        ([] ++ { position := ⟨100, 100⟩, velocity := ⟨0, 0⟩, rotation := 0, radius := 26,
                 active := true, size := 2, rotation_speed := 0,
                 shape := ([] : List Vector2) } :: []) 0 sampleRng =
      bulletsVsAsteroids sampleTrig []
        ([] ++ ([] ++ (Asteroid.split sampleTrig
          { position := ⟨100, 100⟩, velocity := ⟨0, 0⟩, rotation := 0, radius := 26,
            active := false, size := 2, rotation_speed := 0,
            shape := ([] : List Vector2) } sampleRng).1))
        (0 + scoreValue 2)
        (Asteroid.split sampleTrig
          { position := ⟨100, 100⟩, velocity := ⟨0, 0⟩, rotation := 0, radius := 26,
            active := false, size := 2, rotation_speed := 0,
            shape := ([] : List Vector2) } sampleRng).2) ∧
    scoreValue 1 = 100 ∧ scoreValue 2 = 50 ∧ scoreValue 3 = 20 ∧
    (bulletsVsAliens [Bullet.new sampleTrig 300 300 0]
        ([] ++ { position := ⟨300, 300⟩, velocity := ⟨0, 0⟩, rotation := 0, radius := 12,
                 active := true, shoot_timer := 0, shoot_interval := 2, direction_timer := 0,
                 direction_interval := 3 } :: []) 7 =
      bulletsVsAliens [] ([] ++ []) (7 + 500)) :=
  collision_pass_scoring sampleTrig sampleRng 0 7
    (Bullet.new sampleTrig 100 100 0) []
    [] [] { position := ⟨100, 100⟩, velocity := ⟨0, 0⟩, rotation := 0, radius := 26,
            active := true, size := 2, rotation_speed := 0, shape := ([] : List Vector2) }
    (Bullet.new sampleTrig 300 300 0) []
    [] [] { position := ⟨300, 300⟩, velocity := ⟨0, 0⟩, rotation := 0, radius := 12,
            active := true, shoot_timer := 0, shoot_interval := 2, direction_timer := 0,
            direction_interval := 3 }
    (by intro x hx; simp at hx)
    (by with_unfolding_all decide)
    (by intro x hx; simp at hx)
    (by with_unfolding_all decide)

/-- The properties of one rejection-sampled asteroid: size 3, coordinates in
the sampling box [50, 750] x [50, 550], and squared distance to the ship
spawn point above 100 ^ 2. -/
def wellPlaced (sp : Vector2) (a : Asteroid) : Prop :=
  a.size = 3 ∧ 50 ≤ a.position.x ∧ a.position.x ≤ 750 ∧
  50 ≤ a.position.y ∧ a.position.y ≤ 550 ∧
  distSq a.position sp > 100 * 100

theorem placeAsteroid_spec (T : Trig) (sp : Vector2) :
    ∀ (fuel : ℕ) (r : Rng) (a : Asteroid) (r' : Rng),
      placeAsteroid T sp fuel r = some (a, r') → wellPlaced sp a := by
  intro fuel
  induction fuel with
  | zero =>
    intro r a r' h
    exact absurd h (by simp [placeAsteroid])
  | succ n ih =>
    intro r a r' h
    rw [placeAsteroid] at h
    split at h
    · next hc =>
      have hxb := randInt_mem 50 750 r (by norm_num)
      have hyb := randInt_mem 50 550 (randInt 50 750 r).2 (by norm_num)
      have hpair := Option.some.inj h
      have ha : (Asteroid.new T ((randInt 50 750 r).1 : ℚ)
          ((randInt 50 550 (randInt 50 750 r).2).1 : ℚ) 3
          (randInt 50 550 (randInt 50 750 r).2).2).1 = a :=
        congrArg Prod.fst hpair
      rw [← ha]
      refine ⟨rfl, ?_, ?_, ?_, ?_, hc⟩
      · show (50 : ℚ) ≤ ((randInt 50 750 r).1 : ℚ)
        exact_mod_cast hxb.1
      · show ((randInt 50 750 r).1 : ℚ) ≤ 750
        exact_mod_cast hxb.2
      · show (50 : ℚ) ≤ ((randInt 50 550 (randInt 50 750 r).2).1 : ℚ)
        exact_mod_cast hyb.1
      · show ((randInt 50 550 (randInt 50 750 r).2).1 : ℚ) ≤ 550
        exact_mod_cast hyb.2
    · exact ih _ _ _ h

theorem spawnAsteroids_spec (T : Trig) (sp : Vector2) (fuel : ℕ) :
    ∀ (n : ℕ) (r : Rng) (asts : List Asteroid) (r' : Rng),
      spawnAsteroids T sp fuel n r = some (asts, r') →
      asts.length = n ∧ ∀ a ∈ asts, wellPlaced sp a := by
  intro n
  induction n with
  | zero =>
    intro r asts r' h
    rw [spawnAsteroids] at h
    have hp := Option.some.inj h
    injection hp with h1 h2
    subst h1
    refine ⟨rfl, ?_⟩
    intro a ha
    simp at ha
  | succ n ih =>
    intro r asts r' h
    rw [spawnAsteroids] at h
    cases hplace : placeAsteroid T sp fuel r with
    | none =>
      rw [hplace] at h
      exact Option.noConfusion h
    | some p =>
      rcases p with ⟨a0, r1⟩
      rw [hplace] at h
      dsimp only at h
      cases hrec : spawnAsteroids T sp fuel n r1 with
      | none =>
        rw [hrec] at h
        exact Option.noConfusion h
      | some q =>
        rcases q with ⟨rest, r2⟩
        rw [hrec] at h
        dsimp only at h
        have hp := Option.some.inj h
        injection hp with h1 h2
        subst h1
        have hone := placeAsteroid_spec T sp fuel r a0 r1 hplace
        have hrest := ih r1 rest r2 hrec
        refine ⟨by simp [hrest.1], ?_⟩
        intro a ha
        rcases List.mem_cons.mp ha with hh | hh
        · subst hh
          exact hone
        · exact hrest.2 a hh

/-- C6: whenever start_level succeeds, the resulting state has a fresh ship at
the playfield center (400, 300) with 2 s invulnerability and full health,
empty bullet, alien-bullet and alien-ship collections, and exactly 4 + level
size-3 asteroids, each rejection-sampled inside [50, 750] x [50, 550] with
squared distance to the ship spawn point above 100 ^ 2 (equivalently,
distance above 100). -/
theorem start_level_spec (T : Trig) (fuel : ℕ) (g : Game) (r : Rng)
    (h : (Game.start_level T fuel g r).isSome = true) :
    ∃ g2 r2, Game.start_level T fuel g r = some (g2, r2) ∧
      g2.ship = some centerShip ∧
      centerShip.position = ⟨400, 300⟩ ∧
      centerShip.invulnerable_time = 2 ∧
      centerShip.health = centerShip.max_health ∧
      g2.bullets = [] ∧ g2.alien_ships = [] ∧ g2.alien_bullets = [] ∧
      g2.asteroids.length = (4 + g.level).toNat ∧
      ∀ a ∈ g2.asteroids, wellPlaced centerShip.position a := by
  unfold Game.start_level at h ⊢
  dsimp only at h ⊢
  cases hspawn : spawnAsteroids T centerShip.position fuel (4 + g.level).toNat r with
  | none =>
    rw [hspawn] at h
    simp at h
  | some p =>
    rcases p with ⟨asts, r3⟩
    dsimp only
    have hs := spawnAsteroids_spec T centerShip.position fuel (4 + g.level).toNat r asts r3 hspawn
    exact ⟨_, r3, rfl, rfl, rfl, rfl, rfl, rfl, rfl, rfl, hs.1, hs.2⟩

theorem start_level_spec_witness :
    ∃ g2 r2, Game.start_level sampleTrig 1 initGame sampleRng = some (g2, r2) ∧
      g2.ship = some centerShip ∧
      centerShip.position = ⟨400, 300⟩ ∧
      centerShip.invulnerable_time = 2 ∧
      centerShip.health = centerShip.max_health ∧
      g2.bullets = [] ∧ g2.alien_ships = [] ∧ g2.alien_bullets = [] ∧
      g2.asteroids.length = (4 + initGame.level).toNat ∧
      ∀ a ∈ g2.asteroids, wellPlaced centerShip.position a :=
  start_level_spec sampleTrig 1 initGame sampleRng (by with_unfolding_all decide)

/-- C7: when the ship is present and inactive at the life-loss check, lives
drops by exactly 1; at a resulting lives <= 0 the state becomes GAME_OVER
(and the dead ship is kept), otherwise a fresh centered ship with 2 s
invulnerability and full health is spawned; in both cases the asteroid,
bullet, alien-bullet and alien-ship collections, the score and the level are
untouched by this handling. -/
theorem life_loss_spec (g : Game) (s : Ship) (hship : g.ship = some s)
    (hdead : s.active = false) :
    g.lifeCheck.lives = g.lives - 1 ∧
    (g.lives - 1 ≤ 0 → g.lifeCheck.state = GameState.GAME_OVER ∧ g.lifeCheck.ship = g.ship) ∧
    (0 < g.lives - 1 → g.lifeCheck.state = g.state ∧ g.lifeCheck.ship = some centerShip ∧
      centerShip.position = ⟨400, 300⟩ ∧ centerShip.invulnerable_time = 2 ∧
      centerShip.health = centerShip.max_health ∧ centerShip.active = true) ∧
    g.lifeCheck.asteroids = g.asteroids ∧
    g.lifeCheck.bullets = g.bullets ∧
    g.lifeCheck.alien_bullets = g.alien_bullets ∧
    g.lifeCheck.alien_ships = g.alien_ships ∧
    g.lifeCheck.score = g.score ∧
    g.lifeCheck.level = g.level := by
  unfold Game.lifeCheck
  rw [hship]
  dsimp only
  rw [hdead]
  simp only [eq_self_iff_true, if_true]
  by_cases hle : g.lives - 1 ≤ 0
  · rw [if_pos hle]
    exact ⟨rfl, fun _ => ⟨rfl, rfl⟩,
      fun hgt => absurd hle (not_le.mpr (by omega)), rfl, rfl, rfl, rfl, rfl, rfl⟩
  · rw [if_neg hle]
    exact ⟨rfl, fun hl => absurd hl hle,
      fun _ => ⟨rfl, rfl, rfl, rfl, rfl, rfl⟩, rfl, rfl, rfl, rfl, rfl, rfl⟩

theorem life_loss_spec_witness :
    ({ initGame with state := GameState.PLAYING, ship := some { Ship.new 400 300 with active := false } } : Game).lifeCheck.lives
      = ({ initGame with state := GameState.PLAYING, ship := some { Ship.new 400 300 with active := false } } : Game).lives - 1 ∧
    ({ initGame with state := GameState.PLAYING, ship := some { Ship.new 400 300 with active := false } } : Game).lifeCheck.ship
      = some centerShip ∧
    ({ initGame with state := GameState.PLAYING, lives := 1, ship := some { Ship.new 400 300 with active := false } } : Game).lifeCheck.state
      = GameState.GAME_OVER := by
  have hA := life_loss_spec
    { initGame with state := GameState.PLAYING, ship := some { Ship.new 400 300 with active := false } }
    { Ship.new 400 300 with active := false } rfl rfl
  have hB := life_loss_spec
    { initGame with state := GameState.PLAYING, lives := 1, ship := some { Ship.new 400 300 with active := false } }
    { Ship.new 400 300 with active := false } rfl rfl
  exact ⟨hA.1, (hA.2.2.1 (by decide)).2.1, (hB.2.1 (by decide)).1⟩

theorem Game.shipVsAsteroids_level (g : Game) : g.shipVsAsteroids.level = g.level := by
  unfold Game.shipVsAsteroids
  cases g.ship with
  | none => rfl
  | some s =>
    dsimp only
    split
    · split <;> rfl
    · rfl

theorem Game.shipVsAliens_level (g : Game) : g.shipVsAliens.level = g.level := by
  unfold Game.shipVsAliens
  cases g.ship with
  | none => rfl
  | some s =>
    dsimp only
    split
    · split <;> rfl
    · rfl

theorem Game.shipVsAlienBullets_level (g : Game) : g.shipVsAlienBullets.level = g.level := by
  unfold Game.shipVsAlienBullets
  cases g.ship with
  | none => rfl
  | some s =>
    dsimp only
    split
    · split <;> rfl
    · rfl

theorem Game.check_collisions_level (T : Trig) (g : Game) (r : Rng) :
    (Game.check_collisions T g r).1.level = g.level := by
  unfold Game.check_collisions
  dsimp only
  rw [Game.shipVsAlienBullets_level, Game.shipVsAliens_level, Game.shipVsAsteroids_level]

theorem Game.advance_level (T : Trig) (g : Game) (dt : ℚ) (r : Rng) :
    (Game.advance T g dt r).1.level = g.level := by
  unfold Game.advance
  dsimp only
  split
  · rfl
  · rfl

theorem Game.lifeCheck_level (g : Game) : g.lifeCheck.level = g.level := by
  unfold Game.lifeCheck
  cases g.ship with
  | none => rfl
  | some s =>
    dsimp only
    split
    · split <;> rfl
    · rfl

theorem Game.levelCheck_nonempty (T : Trig) (fuel : ℕ) (g : Game) (r : Rng)
    (h : ¬(g.asteroids = [] ∧ g.alien_ships = [])) :
    Game.levelCheck T fuel g r = some (g, r) := by
  unfold Game.levelCheck
  rw [if_neg h]

theorem Game.levelCheck_empty (T : Trig) (fuel : ℕ) (g : Game) (r : Rng)
    (h : g.asteroids = [] ∧ g.alien_ships = []) :
    Game.levelCheck T fuel g r = Game.start_level T fuel { g with level := g.level + 1 } r := by
  unfold Game.levelCheck
  rw [if_pos h]

theorem Game.start_level_level (T : Trig) (fuel : ℕ) (g : Game) (r : Rng) (g2 : Game) (r2 : Rng)
    (h : Game.start_level T fuel g r = some (g2, r2)) : g2.level = g.level := by
  unfold Game.start_level at h
  dsimp only at h
  cases hs : spawnAsteroids T centerShip.position fuel (4 + g.level).toNat r with
  | none =>
    rw [hs] at h
    exact Option.noConfusion h
  | some p =>
    rw [hs] at h
    dsimp only at h
    have hp := Option.some.inj h
    injection hp with h1 h2
    rw [← h1]

/-- C5: within a PLAYING tick, if after collision resolution the asteroid
collection or the alien-ship collection is non-empty, the level is unchanged
by the tick; when both are empty the level is incremented (start_level runs
on the incremented level).  The level-completion condition is checked exactly
once, on the post-collision state, as the definition of Game.update shows. -/
theorem level_advance_spec (T : Trig) (fuel : ℕ) (g : Game) (dt : ℚ) (r : Rng)
    (hplay : g.state = GameState.PLAYING) :
    (((g.postCollisions T dt r).1.asteroids ≠ [] ∨
        (g.postCollisions T dt r).1.alien_ships ≠ []) →
      (Game.update T fuel g dt r).map (fun p => p.1.level) = some g.level) ∧
    ((g.postCollisions T dt r).1.asteroids = [] ∧
        (g.postCollisions T dt r).1.alien_ships = [] →
      (Game.update T fuel g dt r).map (fun p => p.1.level)
        = (Game.update T fuel g dt r).map (fun p => g.level + 1)) := by
  have hpc : (g.postCollisions T dt r).1.level = g.level := by
    show (Game.check_collisions T (g.advance T dt r).1 (g.advance T dt r).2).1.level = _
    rw [Game.check_collisions_level, Game.advance_level]
  constructor
  · intro hne
    unfold Game.update
    rw [if_pos hplay]
    dsimp only
    rw [Game.levelCheck_nonempty T fuel _ _ (by tauto)]
    simp only [Option.map_some']
    rw [Game.lifeCheck_level, hpc]
  · intro hemp
    unfold Game.update
    rw [if_pos hplay]
    dsimp only
    rw [Game.levelCheck_empty T fuel _ _ hemp]
    cases hs : Game.start_level T fuel
        { (g.postCollisions T dt r).1 with level := (g.postCollisions T dt r).1.level + 1 }
        (g.postCollisions T dt r).2 with
    | none => rfl
    | some p =>
      rcases p with ⟨g3, r3⟩
      have hl := Game.start_level_level T fuel _ _ g3 r3 hs
      simp only [Option.map_some']
      rw [Game.lifeCheck_level, hl]
      show some ((g.postCollisions T dt r).1.level + 1) = some (g.level + 1)
      rw [hpc]

/-- A concrete large asteroid used by the concrete evaluations below. -/
def sampleAsteroid : Asteroid :=
  { position := ⟨100, 100⟩, velocity := ⟨0, 0⟩, rotation := 0, radius := 34, active := true,
    size := 3, rotation_speed := 0, shape := [] }

theorem level_advance_spec_witness :
    ((Game.update sampleTrig 1
        { initGame with state := GameState.PLAYING, asteroids := [sampleAsteroid] } 0 sampleRng).map
      (fun p => p.1.level)
      = some ({ initGame with state := GameState.PLAYING, asteroids := [sampleAsteroid] } : Game).level) ∧
    ((Game.update sampleTrig 1 { initGame with state := GameState.PLAYING } 0 sampleRng).map
        (fun p => p.1.level)
      = (Game.update sampleTrig 1 { initGame with state := GameState.PLAYING } 0 sampleRng).map
        (fun p => ({ initGame with state := GameState.PLAYING } : Game).level + 1)) := by
  constructor
  · exact (level_advance_spec sampleTrig 1
      { initGame with state := GameState.PLAYING, asteroids := [sampleAsteroid] } 0 sampleRng
      rfl).1 (by with_unfolding_all decide)
  · exact (level_advance_spec sampleTrig 1 { initGame with state := GameState.PLAYING }
      0 sampleRng rfl).2 (by with_unfolding_all decide)
